import Mathlib

/-!
Shallow embedding of the ESP32 WifiClient component
(src/WifiClient.cpp, src/include/WifiClient.h).

The component is a singleton holding a `connected` flag (mutex-guarded in
the source; modelled as a plain field, since every critical section is a
single read or write and the driver events are delivered serially), an
`initalized` flag (the source's spelling), and a list of subscriber queues
(`eventReceivers`).  External driver calls (`esp_wifi_start`,
`esp_event_handler_register`, ...) are modelled with explicit
success/failure oracles and an action trace listing the driver calls an
operation performed, in order.  C++ exceptions are modelled as an
`Option WifiError` result; a throw leaves all mutations made before it in
place, exactly as in the source.
-/

/-- WifiClient::Event (WifiClient.h lines 58-61): the two notification
values sent to subscriber queues. -/
inductive Event
  | CONNECTED
  | DISCONNECTED
  deriving DecidableEq, Repr

/-- A FreeRTOS bounded queue as used by the component: a fixed capacity
(chosen at creation) and the items currently stored, oldest first. -/
structure Queue where
  cap : Nat
  items : List Event
  deriving DecidableEq, Repr

/-- FreeRTOS xQueueSend with ticksToWait = 0, as called in
WifiClient::fireEvent (WifiClient.cpp line 222): if the queue is full the
send fails immediately (returns false, no blocking); otherwise the event
is appended and the send succeeds. -/
def xQueueSend (q : Queue) (e : Event) : Queue × Bool :=
  if q.items.length < q.cap then ({ q with items := q.items ++ [e] }, true)
  else (q, false)

/-- WifiClient::fireEvent (WifiClient.cpp lines 220-227): send the event
to every registered queue with zero timeout; a failed send is only
logged, the loop continues with the remaining queues. -/
def fireEvent (qs : List Queue) (e : Event) : List Queue :=
  qs.map (fun q => (xQueueSend q e).1)

/-- The singleton's state (WifiClient.h lines 106-110): the mutex-guarded
`connected` flag, the `initalized` flag (source spelling kept), and the
registry of subscriber queues.  Constructed with `connected = false`. -/
structure WifiState where
  connected : Bool
  initalized : Bool
  eventReceivers : List Queue
  deriving DecidableEq, Repr

/-- WifiClient::isConnected (WifiClient.cpp lines 200-207): take the
mutex, read the flag, give the mutex back, return the value. -/
def isConnected (s : WifiState) : Bool :=
  s.connected

/-- WifiClient::setConnected (WifiClient.cpp lines 73-78): take the
mutex, write the flag, give the mutex back. -/
def setConnected (s : WifiState) (b : Bool) : WifiState :=
  { s with connected := b }

/-- The (event_base, event_id) pairs the handler's if/else chain
distinguishes (WifiClient.cpp lines 25-61); `other` is any pair matching
no branch, for which the handler does nothing. -/
inductive DriverEvent
  | staStart
  | staDisconnected
  | wifiReady
  | staConnected
  | gotIp
  | other
  deriving DecidableEq, Repr

/-- One internal step of the handler body: a fireEvent fan-out over all
subscriber queues, a setConnected write, or an esp_wifi_connect driver
call. -/
inductive Step
  | fired (e : Event)
  | setFlag (b : Bool)
  | driverConnect
  deriving DecidableEq, Repr

/-- Effect of one handler step on the singleton state.  A
`driverConnect` call only talks to the driver (its error is logged and
discarded, WifiClient.cpp lines 30-32 and 42-44), so it leaves the state
unchanged. -/
def applyStep (s : WifiState) : Step → WifiState
  | .fired e => { s with eventReceivers := fireEvent s.eventReceivers e }
  | .setFlag b => setConnected s b
  | .driverConnect => s

/-- WifiClient_event_handler (WifiClient.cpp lines 20-62) as the ordered
list of steps its body executes for a given event, from a given state:
station start issues a driver connect; station disconnected fires
DISCONNECTED (only if the flag was true), then sets the flag false, then
issues a driver reconnect; got-ip fires CONNECTED (only if the flag was
false), then sets the flag true; the remaining events only log. -/
def handlerSteps (s : WifiState) : DriverEvent → List Step
  | .staStart => [.driverConnect]
  | .staDisconnected =>
      (if isConnected s then [Step.fired .DISCONNECTED] else []) ++
        [.setFlag false, .driverConnect]
  | .wifiReady => []
  | .staConnected => []
  | .gotIp =>
      (if isConnected s then [] else [Step.fired .CONNECTED]) ++ [.setFlag true]
  | .other => []

/-- State after the handler has processed one driver event: its steps,
applied in order. -/
def handlerState (s : WifiState) (e : DriverEvent) : WifiState :=
  (handlerSteps s e).foldl applyStep s

/-- State after the handler has processed a sequence of driver events,
delivered serially by the event-dispatch thread. -/
def processEvents (s : WifiState) (evs : List DriverEvent) : WifiState :=
  evs.foldl handlerState s

/-- How one driver event rewrites the connected flag: got-ip sets it,
station-disconnected clears it, every other event leaves it alone. -/
def connStep (c : Bool) (e : DriverEvent) : Bool :=
  match e with
  | .gotIp => true
  | .staDisconnected => false
  | _ => c

/-- The connected flag after a sequence of driver events, starting from
flag value `c`. -/
def connectedAfter (c : Bool) (evs : List DriverEvent) : Bool :=
  evs.foldl connStep c

/-- Scan of a driver-event history given most recent first: `c` if no
address-relevant event occurs, `true` if the most recent address-relevant
event is got-ip, `false` if it is station-disconnected. -/
def lastAcquiredFrom (c : Bool) : List DriverEvent → Bool
  | [] => c
  | e :: rest =>
      if e = DriverEvent.gotIp then true
      else if e = DriverEvent.staDisconnected then false
      else lastAcquiredFrom c rest

/-- Spec-side definition, following the spec's words (section 8): the
client counts as connected if and only if the most recent
address-relevant event was "address acquired" (got-ip) and no "station
disconnected" event has occurred after it; with no such event the
history started disconnected. -/
def specIsConnected (evs : List DriverEvent) : Bool :=
  lastAcquiredFrom false evs.reverse

/-- The event base an esp_event handler (un)registration names. -/
inductive EventBase
  | WIFI_EVENT
  | IP_EVENT
  deriving DecidableEq, Repr

/-- The event id an esp_event handler (un)registration names: the
wildcard ESP_EVENT_ANY_ID or the single id IP_EVENT_STA_GOT_IP. -/
inductive EventId
  | anyId
  | gotIpId
  deriving DecidableEq, Repr

/-- One external driver / event-dispatch call performed by a lifecycle
operation, recorded in the order the operation issues them. -/
inductive DriverCall
  | espWifiStart
  | espWifiStop
  | registerHandler (base : EventBase) (id : EventId)
  | unregisterHandler (base : EventBase) (id : EventId)
  deriving DecidableEq, Repr

/-- The errors the component throws: runtime_error / invalid_argument,
distinguished by the failing step named in the message. -/
inductive WifiError
  | notInitialized
  | registerFailed (base : EventBase)
  | startFailed
  | stopFailed
  | unregisterFailed (base : EventBase)
  | invalidArgument
  | queueCreateFailed
  | netifInitFailed
  | eventLoopCreateFailed
  | wifiInitFailed
  | setModeFailed
  | setConfigFailed
  deriving DecidableEq, Repr

/-- Outcome of connect() / disconnect(): the state after the call (a
throw keeps every mutation made before it), the thrown error if any, and
the trace of driver calls issued, in order. -/
structure OpResult where
  state : WifiState
  error : Option WifiError
  trace : List DriverCall
  deriving DecidableEq, Repr

/-- Success/failure oracle for the three driver calls connect() can
make, in the order the source makes them. -/
structure ConnectResults where
  regWifi : Bool
  regIp : Bool
  start : Bool
  deriving DecidableEq, Repr

/-- WifiClient::connect (WifiClient.cpp lines 138-166): throw if not
initialized; return silently if isConnected(); otherwise register the
handler for (WIFI_EVENT, ANY), then for (IP_EVENT, STA_GOT_IP), then
start the driver, throwing on the first failing call.  The method is
const: it never mutates the singleton's own state. -/
def connect (s : WifiState) (r : ConnectResults) : OpResult :=
  if !s.initalized then ⟨s, some .notInitialized, []⟩
  else if isConnected s then ⟨s, none, []⟩
  else
    let t1 : List DriverCall := [.registerHandler .WIFI_EVENT .anyId]
    if !r.regWifi then ⟨s, some (.registerFailed .WIFI_EVENT), t1⟩
    else
      let t2 := t1 ++ [DriverCall.registerHandler .IP_EVENT .gotIpId]
      if !r.regIp then ⟨s, some (.registerFailed .IP_EVENT), t2⟩
      else
        let t3 := t2 ++ [DriverCall.espWifiStart]
        if !r.start then ⟨s, some .startFailed, t3⟩
        else ⟨s, none, t3⟩

/-- Success/failure oracle for the three driver calls disconnect() can
make, in the order the source makes them. -/
structure DisconnectResults where
  stop : Bool
  unregWifi : Bool
  unregIp : Bool
  deriving DecidableEq, Repr

/-- WifiClient::disconnect (WifiClient.cpp lines 168-198): throw if not
initialized; return silently if not isConnected(); otherwise stop the
driver, then unregister the (WIFI_EVENT, ANY) handler, then the
(IP_EVENT, STA_GOT_IP) handler, throwing on the first failing call, and
finally setConnected(false). -/
def disconnect (s : WifiState) (r : DisconnectResults) : OpResult :=
  if !s.initalized then ⟨s, some .notInitialized, []⟩
  else if !(isConnected s) then ⟨s, none, []⟩
  else
    let t1 : List DriverCall := [.espWifiStop]
    if !r.stop then ⟨s, some .stopFailed, t1⟩
    else
      let t2 := t1 ++ [DriverCall.unregisterHandler .WIFI_EVENT .anyId]
      if !r.unregWifi then ⟨s, some (.unregisterFailed .WIFI_EVENT), t2⟩
      else
        let t3 := t2 ++ [DriverCall.unregisterHandler .IP_EVENT .gotIpId]
        if !r.unregIp then ⟨s, some (.unregisterFailed .IP_EVENT), t3⟩
        else ⟨setConnected s false, none, t3⟩

/-- Outcome of registerEventReceiver: the state after the call, the
thrown error if any, and the value left in the caller's queue-handle
out-parameter (`none` models a null QueueHandle_t). -/
structure RegisterResult where
  state : WifiState
  error : Option WifiError
  handleOut : Option Queue
  deriving DecidableEq, Repr

/-- WifiClient::registerEventReceiver (WifiClient.cpp lines 209-218):
throw invalid_argument if queueSize is 0 (out-parameter untouched);
otherwise assign xQueueCreate's result to the out-parameter — the null
handle when creation fails, in which case a runtime_error is thrown with
the registry unchanged — and on success append the new queue to
eventReceivers.  `handleIn` is the out-parameter's value before the
call; `creationOk` is the xQueueCreate success oracle.  queueSize is a
uint8_t in the source; its value range does not matter here. -/
def registerEventReceiver (s : WifiState) (handleIn : Option Queue)
    (queueSize : Nat) (creationOk : Bool) : RegisterResult :=
  if queueSize = 0 then ⟨s, some .invalidArgument, handleIn⟩
  else if creationOk then
    let q : Queue := ⟨queueSize, []⟩
    ⟨{ s with eventReceivers := s.eventReceivers ++ [q] }, none, some q⟩
  else ⟨s, some .queueCreateFailed, none⟩

/-- WifiClient::Config (WifiClient.h lines 50-53): two std::strings with
no length restriction of any kind. -/
structure Config where
  ssid : String
  password : String
  deriving DecidableEq, Repr

/-- Modelled from the spec: the driver's maximum field length for the
network name.  The destination field wifi_config_t.sta.ssid is a fixed
32-byte array declared in the external driver header (esp_wifi_types.h),
which is not part of src/. -/
def DRIVER_SSID_CAP : Nat := 32

/-- Modelled from the spec: the driver's maximum field length for the
pre-shared credential.  The destination field wifi_config_t.sta.password
a fixed 64-byte array in the same external driver header. -/
def DRIVER_PASSWORD_CAP : Nat := 64

/-- Result of a memcpy of a whole string into a fixed-capacity field:
the bytes that land inside the field, and whether the copy ran past the
field's end (an out-of-bounds write). -/
structure FieldWrite where
  stored : List Char
  pastEnd : Bool
  deriving DecidableEq, Repr

/-- memcpy(field, src.c_str(), src.length()) into a field of `cap`
bytes, as done in WifiClient::init (WifiClient.cpp lines 123-124): the
source length is not checked against the capacity. -/
def memcpyToField (cap : Nat) (src : List Char) : FieldWrite :=
  ⟨src.take cap, decide (cap < src.length)⟩

/-- Success/failure oracle for the driver calls init makes, in source
order. -/
structure InitResults where
  netifInit : Bool
  eventLoopCreate : Bool
  wifiInit : Bool
  setMode : Bool
  setConfig : Bool
  deriving DecidableEq, Repr

/-- Outcome of init: the state after the call, the thrown error if any,
and the two memcpy writes into the driver config's fixed-size fields
(`none` when the copy was never reached because an earlier step threw). -/
structure InitOutcome where
  state : WifiState
  error : Option WifiError
  ssidWrite : Option FieldWrite
  passwordWrite : Option FieldWrite
  deriving DecidableEq, Repr

/-- WifiClient::init (WifiClient.cpp lines 80-136): init netif, create
the default event loop, init the driver (throwing on the first failure),
then memcpy the config's ssid and password — at their full lengths, with
no bound check — into the driver config's fixed-size fields, set station
mode, set the driver config, and finally set `initalized`.  Log-level
calls, mutex creation and the station-netif creation have no observable
effect here and are not recorded. -/
def init (s : WifiState) (cfg : Config) (r : InitResults) : InitOutcome :=
  if !r.netifInit then ⟨s, some .netifInitFailed, none, none⟩
  else if !r.eventLoopCreate then ⟨s, some .eventLoopCreateFailed, none, none⟩
  else if !r.wifiInit then ⟨s, some .wifiInitFailed, none, none⟩
  else
    let sw := memcpyToField DRIVER_SSID_CAP cfg.ssid.data
    let pw := memcpyToField DRIVER_PASSWORD_CAP cfg.password.data
    if !r.setMode then ⟨s, some .setModeFailed, some sw, some pw⟩
    else if !r.setConfig then ⟨s, some .setConfigFailed, some sw, some pw⟩
    else ⟨{ s with initalized := true }, none, some sw, some pw⟩

/-- One handler invocation rewrites the connected flag exactly as
`connStep` says, whatever the subscriber queues hold. -/
theorem handlerState_connected (s : WifiState) (e : DriverEvent) :
    (handlerState s e).connected = connStep s.connected e := by
  cases e <;> cases hc : s.connected <;>
    simp [handlerState, handlerSteps, applyStep, connStep, isConnected,
      setConnected, hc]

/-- The connected flag after a whole event sequence is the fold of
`connStep` over it. -/
theorem processEvents_connected (evs : List DriverEvent) (s : WifiState) :
    (processEvents s evs).connected = connectedAfter s.connected evs := by
  induction evs generalizing s with
  | nil => rfl
  | cons e rest ih =>
      have h1 : processEvents s (e :: rest) = processEvents (handlerState s e) rest := rfl
      have h2 : connectedAfter s.connected (e :: rest) =
          connectedAfter (connStep s.connected e) rest := rfl
      rw [h1, h2, ih, handlerState_connected]

/-- Folding `connStep` from the left computes the most-recent-relevant
scan of the reversed sequence. -/
theorem connectedAfter_eq_lastAcquiredFrom (evs : List DriverEvent) (c : Bool) :
    connectedAfter c evs = lastAcquiredFrom c evs.reverse := by
  induction evs using List.reverseRecOn with
  | nil => rfl
  | append_singleton l a ih =>
      have h1 : connectedAfter c (l ++ [a]) = connStep (connectedAfter c l) a := by
        simp [connectedAfter, List.foldl_append]
      have h2 : (l ++ [a]).reverse = a :: l.reverse := by simp
      rw [h1, h2, ih]
      cases a <;> simp [connStep, lastAcquiredFrom]

/-- C1: for every sequence of driver events processed by the handler
starting from the initial state (connected = false, any initialization
flag, any subscriber queues), isConnected() returns true if and only if
the most recent address-relevant event in the sequence was "address
acquired" (IP_EVENT_STA_GOT_IP) and no "station disconnected"
(WIFI_EVENT_STA_DISCONNECTED) event has occurred after it, as captured
by the spec-side definition `specIsConnected`. -/
theorem isConnected_processEvents_eq_spec (evs : List DriverEvent) (b : Bool)
    (qs : List Queue) :
    isConnected (processEvents ⟨false, b, qs⟩ evs) = specIsConnected evs := by
  show (processEvents ⟨false, b, qs⟩ evs).connected = specIsConnected evs
  rw [processEvents_connected]
  exact connectedAfter_eq_lastAcquiredFrom evs false

example :
    isConnected (processEvents ⟨false, true, []⟩
      [.staStart, .gotIp, .staDisconnected, .staConnected, .gotIp, .wifiReady]) = true := by
  decide

example :
    isConnected (processEvents ⟨false, true, []⟩
      [.staStart, .gotIp, .staDisconnected, .staConnected]) = false := by
  decide

/-- C2: whenever connect() is called with the initialization flag true
and the connection state already true, the call returns without error,
performs no driver call at all (in particular no driver start and no
event-handler registration), and leaves the state unchanged. -/
theorem connect_noop_when_connected (s : WifiState) (r : ConnectResults)
    (hi : s.initalized = true) (hc : s.connected = true) :
    connect s r = ⟨s, none, []⟩ := by
  simp [connect, isConnected, hi, hc]

theorem connect_noop_when_connected_witness :
    connect ⟨true, true, []⟩ ⟨true, true, true⟩ = ⟨⟨true, true, []⟩, none, []⟩ :=
  connect_noop_when_connected ⟨true, true, []⟩ ⟨true, true, true⟩ rfl rfl

/-- C3: connect() and disconnect() called while the initialization flag
is false both throw the "not initialized" error, perform no driver call
(no start, stop, registration or unregistration), and mutate no
component state — the returned state, connected flag and subscriber
registry included, is exactly the input state. -/
theorem not_initialized_rejects (s : WifiState) (rc : ConnectResults)
    (rd : DisconnectResults) (h : s.initalized = false) :
    connect s rc = ⟨s, some .notInitialized, []⟩ ∧
    disconnect s rd = ⟨s, some .notInitialized, []⟩ := by
  constructor <;> simp [connect, disconnect, h]

theorem not_initialized_rejects_witness :
    connect ⟨false, false, []⟩ ⟨true, true, true⟩ =
      ⟨⟨false, false, []⟩, some .notInitialized, []⟩ ∧
    disconnect ⟨false, false, []⟩ ⟨true, true, true⟩ =
      ⟨⟨false, false, []⟩, some .notInitialized, []⟩ :=
  not_initialized_rejects ⟨false, false, []⟩ ⟨true, true, true⟩ ⟨true, true, true⟩ rfl

/-- C7: registerEventReceiver called with a size hint of zero throws the
invalid-argument error, creates no queue, leaves the subscriber registry
(and all other state) unchanged, and does not touch the caller's
queue-handle out-parameter. -/
theorem registerEventReceiver_zero_size (s : WifiState) (hIn : Option Queue)
    (ok : Bool) :
    registerEventReceiver s hIn 0 ok = ⟨s, some .invalidArgument, hIn⟩ := by
  simp [registerEventReceiver]

/-- C5: in the handler body, on a station-disconnected event with the
connected flag true, the fan-out of the Disconnected notification to all
subscriber queues (the `fired` step) occurs strictly before the flag is
set to false (position 0 versus position 1 of the executed steps), and
symmetrically on a got-ip event with the flag false the Connected
fan-out occurs strictly before the flag is set to true; when the flag
already holds the target value no notification is fired at all. -/
theorem fire_before_flip (s : WifiState) :
    (s.connected = true →
      (handlerSteps s .staDisconnected)[0]? = some (.fired .DISCONNECTED) ∧
      (handlerSteps s .staDisconnected)[1]? = some (.setFlag false)) ∧
    (s.connected = false →
      (handlerSteps s .gotIp)[0]? = some (.fired .CONNECTED) ∧
      (handlerSteps s .gotIp)[1]? = some (.setFlag true)) ∧
    (s.connected = false →
      Step.fired .DISCONNECTED ∉ handlerSteps s .staDisconnected) ∧
    (s.connected = true → Step.fired .CONNECTED ∉ handlerSteps s .gotIp) := by
  cases hc : s.connected <;>
    simp [handlerSteps, isConnected, hc]

theorem fire_before_flip_witness :
    ((handlerSteps ⟨true, true, []⟩ .staDisconnected)[0]? =
        some (.fired .DISCONNECTED) ∧
      (handlerSteps ⟨true, true, []⟩ .staDisconnected)[1]? =
        some (.setFlag false)) ∧
    ((handlerSteps ⟨false, true, []⟩ .gotIp)[0]? = some (.fired .CONNECTED) ∧
      (handlerSteps ⟨false, true, []⟩ .gotIp)[1]? = some (.setFlag true)) :=
  ⟨(fire_before_flip ⟨true, true, []⟩).1 rfl,
    (fire_before_flip ⟨false, true, []⟩).2.1 rfl⟩

/-- C6: during notification fan-out, each registered queue is handled
independently of all the others: the registry keeps its length, and the
queue at any position i receives the event exactly when it has spare
capacity, and is left unchanged (the notification dropped for that
subscriber only) when it is at capacity — so a full queue never
prevents delivery to the remaining subscribers, and the zero-timeout
send never blocks. -/
theorem fireEvent_isolated_drop (qs : List Queue) (e : Event) (i : Nat)
    (h : i < qs.length) :
    (fireEvent qs e).length = qs.length ∧
    (fireEvent qs e)[i]? =
      some (if qs[i].items.length < qs[i].cap
            then { qs[i] with items := qs[i].items ++ [e] }
            else qs[i]) := by
  refine ⟨by simp [fireEvent], ?_⟩
  simp [fireEvent, xQueueSend, List.getElem?_eq_getElem h]
  split <;> rfl

theorem fireEvent_isolated_drop_witness :
    (fireEvent [⟨1, [Event.CONNECTED]⟩, ⟨1, []⟩] .DISCONNECTED)[0]? =
      some ⟨1, [Event.CONNECTED]⟩ ∧
    (fireEvent [⟨1, [Event.CONNECTED]⟩, ⟨1, []⟩] .DISCONNECTED)[1]? =
      some ⟨1, [Event.DISCONNECTED]⟩ := by
  have h0 :=
    (fireEvent_isolated_drop [⟨1, [Event.CONNECTED]⟩, ⟨1, []⟩] .DISCONNECTED 0
      (by decide)).2
  have h1 :=
    (fireEvent_isolated_drop [⟨1, [Event.CONNECTED]⟩, ⟨1, []⟩] .DISCONNECTED 1
      (by decide)).2
  exact ⟨by simpa using h0, by simpa using h1⟩

/-- C8: disconnect() called with the initialization flag true and the
connected flag true, with every underlying call succeeding, issues
exactly the driver calls [stop; unregister (WIFI_EVENT, ANY);
unregister (IP_EVENT, STA_GOT_IP)] in that order — the driver stop
strictly precedes both unregistrations — throws no error, and finally
sets the connected flag to false, leaving the rest of the state
intact. -/
theorem disconnect_stop_precedes_unregister (s : WifiState)
    (hi : s.initalized = true) (hc : s.connected = true) :
    disconnect s ⟨true, true, true⟩ =
      ⟨{ s with connected := false }, none,
        [.espWifiStop, .unregisterHandler .WIFI_EVENT .anyId,
          .unregisterHandler .IP_EVENT .gotIpId]⟩ ∧
    (disconnect s ⟨true, true, true⟩).trace.indexOf DriverCall.espWifiStop <
      (disconnect s ⟨true, true, true⟩).trace.indexOf
        (DriverCall.unregisterHandler .WIFI_EVENT .anyId) ∧
    (disconnect s ⟨true, true, true⟩).trace.indexOf DriverCall.espWifiStop <
      (disconnect s ⟨true, true, true⟩).trace.indexOf
        (DriverCall.unregisterHandler .IP_EVENT .gotIpId) := by
  have h : disconnect s ⟨true, true, true⟩ =
      ⟨{ s with connected := false }, none,
        [.espWifiStop, .unregisterHandler .WIFI_EVENT .anyId,
          .unregisterHandler .IP_EVENT .gotIpId]⟩ := by
    simp [disconnect, isConnected, setConnected, hi, hc]
  refine ⟨h, ?_, ?_⟩ <;> simp only [h] <;> decide

theorem disconnect_stop_precedes_unregister_witness :
    disconnect ⟨true, true, []⟩ ⟨true, true, true⟩ =
      ⟨⟨false, true, []⟩, none,
        [.espWifiStop, .unregisterHandler .WIFI_EVENT .anyId,
          .unregisterHandler .IP_EVENT .gotIpId]⟩ :=
  (disconnect_stop_precedes_unregister ⟨true, true, []⟩ rfl rfl).1

/-- C9: connect() gates itself on the connected flag alone, not on
whether the driver was already started: from any initialized state whose
connected flag is still false (for instance right after a first
successful connect(), before an address is acquired), a connect() call
with all driver calls succeeding performs both handler registrations
and the driver start and leaves the state unchanged — so running it
twice in a row issues every registration (and the start) twice,
duplicating the registrations. -/
theorem connect_repeats_registration (s : WifiState)
    (hi : s.initalized = true) (hc : s.connected = false) :
    connect s ⟨true, true, true⟩ =
      ⟨s, none,
        [.registerHandler .WIFI_EVENT .anyId, .registerHandler .IP_EVENT .gotIpId,
          .espWifiStart]⟩ ∧
    ((connect s ⟨true, true, true⟩).trace ++
        (connect (connect s ⟨true, true, true⟩).state ⟨true, true, true⟩).trace).count
      (DriverCall.registerHandler .WIFI_EVENT .anyId) = 2 ∧
    ((connect s ⟨true, true, true⟩).trace ++
        (connect (connect s ⟨true, true, true⟩).state ⟨true, true, true⟩).trace).count
      (DriverCall.registerHandler .IP_EVENT .gotIpId) = 2 ∧
    ((connect s ⟨true, true, true⟩).trace ++
        (connect (connect s ⟨true, true, true⟩).state ⟨true, true, true⟩).trace).count
      DriverCall.espWifiStart = 2 := by
  have h : connect s ⟨true, true, true⟩ =
      ⟨s, none,
        [.registerHandler .WIFI_EVENT .anyId, .registerHandler .IP_EVENT .gotIpId,
          .espWifiStart]⟩ := by
    simp [connect, isConnected, hi, hc]
  refine ⟨h, ?_, ?_, ?_⟩ <;> simp only [h] <;> decide

theorem connect_repeats_registration_witness :
    connect ⟨false, true, []⟩ ⟨true, true, true⟩ =
      ⟨⟨false, true, []⟩, none,
        [.registerHandler .WIFI_EVENT .anyId, .registerHandler .IP_EVENT .gotIpId,
          .espWifiStart]⟩ ∧
    ((connect ⟨false, true, []⟩ ⟨true, true, true⟩).trace ++
        (connect (connect ⟨false, true, []⟩ ⟨true, true, true⟩).state
            ⟨true, true, true⟩).trace).count
      (DriverCall.registerHandler .WIFI_EVENT .anyId) = 2 :=
  ⟨(connect_repeats_registration ⟨false, true, []⟩ rfl rfl).1,
    (connect_repeats_registration ⟨false, true, []⟩ rfl rfl).2.1⟩

/-- C10: registerEventReceiver called with a non-zero size hint whose
queue creation fails throws the resource error and leaves the subscriber
registry (and all other state) unchanged — but the caller's queue-handle
out-parameter has by then already been overwritten with the null handle
(`none`), whatever it held before: the out-parameter is mutated even
though the operation fails. -/
theorem registerEventReceiver_failure_nulls_handle (s : WifiState)
    (hIn : Option Queue) (n : Nat) (h : n ≠ 0) :
    registerEventReceiver s hIn n false = ⟨s, some .queueCreateFailed, none⟩ := by
  simp [registerEventReceiver, h]

theorem registerEventReceiver_failure_nulls_handle_witness :
    registerEventReceiver ⟨false, true, []⟩ (some ⟨1, []⟩) 1 false =
      ⟨⟨false, true, []⟩, some .queueCreateFailed, none⟩ :=
  registerEventReceiver_failure_nulls_handle ⟨false, true, []⟩ (some ⟨1, []⟩) 1
    (by decide)

/-- C4: evidence that the claim fails on the code.  init performs no
length validation: it accepts a configuration whose network name is 33
bytes (one more than the driver's 32-byte ssid field), completes
successfully (no error, initialization flag set), yet the modelled
memcpy of the name into the driver's fixed-size field runs past the end
of the field — an out-of-bounds write.  The copy is neither bounded by
the code nor guarded by any stated precondition. -/
theorem init_accepts_overlong_ssid :
    (init ⟨false, false, []⟩ ⟨⟨List.replicate 33 'a'⟩, "pw"⟩
        ⟨true, true, true, true, true⟩).error = none ∧
    (init ⟨false, false, []⟩ ⟨⟨List.replicate 33 'a'⟩, "pw"⟩
        ⟨true, true, true, true, true⟩).state.initalized = true ∧
    (init ⟨false, false, []⟩ ⟨⟨List.replicate 33 'a'⟩, "pw"⟩
        ⟨true, true, true, true, true⟩).ssidWrite.map FieldWrite.pastEnd =
      some true := by
  decide
